import Mathlib

/-!
Verification development for the dimensional-modeling / pipeline-orchestration
core of the azure-mcp-server repository.

The TypeScript source is shallowly embedded: each operation of
`DimensionalModelingTools` (src/tools/dimensional.ts),
`FabricPipelineOrchestrator` (src/tools/fabricpipelines.ts) and
`DataWarehouseManagement` (src/tools/datawarehouse.ts) that the claims
mention becomes a pure Lean function over explicit value objects.
JavaScript strings become `String`; optional fields (`x?: T`) become
`Option T`; `{ a = default } = options` destructuring becomes `Option.getD`;
array `push` becomes list append; `async` wrappers around purely
computational bodies are dropped (the bodies never await anything).
Network calls (`makeApiRequest`, `createDataPipeline`'s PUT) are the
external execution service: pipeline builders are embedded up to the
`PipelineDefinition` they construct and hand to that service, and the batch
deployer takes the service's per-item outcomes as an explicit oracle.
The ambient clock (`new Date().toISOString()`) becomes an explicit
argument where the source reads it.
-/

namespace AzureMcp

/-! ## String primitives mirroring the JavaScript operations used by the source -/

/-- JavaScript `String.prototype.toLowerCase` (all identifiers in the source
are ASCII, where it agrees with per-character lowering). -/
def jsToLower (s : String) : String := ⟨s.data.map Char.toLower⟩

/-- Replace the first occurrence of `pat` in the list (JavaScript
`String.prototype.replace` with a string pattern replaces only the first
occurrence, anywhere in the string). -/
def replaceFirstAux (pat repl : List Char) : List Char → List Char
  | [] => if pat = [] then repl else []
  | c :: rest =>
    if pat.isPrefixOf (c :: rest) then repl ++ (c :: rest).drop pat.length
    else c :: replaceFirstAux pat repl rest

/-- JavaScript `s.replace(pat, repl)` for a plain-string `pat`: replaces the
first occurrence only, or returns `s` unchanged when `pat` does not occur. -/
def jsReplaceFirst (s pat repl : String) : String :=
  ⟨replaceFirstAux pat.data repl.data s.data⟩

/-! ## Schema model (src/tools/dimensional.ts, interfaces) -/

/-- `DimensionColumn` of dimensional.ts. -/
structure DimensionColumn where
  name : String
  dataType : String
  isPrimaryKey : Option Bool := none
  isBusinessKey : Option Bool := none
  isSCD : Option Bool := none
  scdType : Option Nat := none
  description : Option String := none
deriving Repr, DecidableEq

/-- `FactColumn` of dimensional.ts. `aggregationType` is one of
SUM/COUNT/AVG/MIN/MAX, kept as a string. -/
structure FactColumn where
  name : String
  dataType : String
  aggregationType : Option String := none
  isAdditive : Option Bool := none
  isMeasure : Option Bool := none
  description : Option String := none
deriving Repr, DecidableEq

/-- `DimensionTable` of dimensional.ts (`scdType : 1 | 2 | 3` kept as `Nat`). -/
structure DimensionTable where
  name : String
  businessName : String
  description : Option String := none
  columns : List DimensionColumn
  scdType : Nat
  naturalKey : List String
  surrogateKey : String
deriving Repr, DecidableEq

/-- `FactTable` of dimensional.ts. -/
structure FactTable where
  name : String
  businessName : String
  description : Option String := none
  columns : List FactColumn
  measures : List String
  dimensionKeys : List String
  grainDescription : String
deriving Repr, DecidableEq

/-- `StarSchema` of dimensional.ts. -/
structure StarSchema where
  name : String
  description : Option String := none
  factTable : FactTable
  dimensionTables : List DimensionTable
deriving Repr, DecidableEq

/-! ## Dimension synthesis (DimensionalModelingTools.generateDimensionTable) -/

/-- Options bag of `generateDimensionTable` (defaults applied in the body,
mirroring the destructuring defaults of the source). -/
structure DimOptions where
  scdType : Option Nat := none
  naturalKey : Option (List String) := none
  surrogateKey : Option String := none
  description : Option String := none
deriving Repr, DecidableEq

/-- One rendered column line of the dimension DDL: bracketed name, data type,
`PRIMARY KEY` suffix when flagged, trailing comment when the description is a
non-empty string (JavaScript truthiness: `undefined` and the empty string
both skip the comment). -/
def dimColumnLine (col : DimensionColumn) : String :=
  let d0 := "    [" ++ col.name ++ "] " ++ col.dataType
  let d1 := if col.isPrimaryKey.getD false then d0 ++ " PRIMARY KEY" else d0
  if col.description.getD "" = "" then d1 else d1 ++ " -- " ++ col.description.getD ""

/-- `generateDimensionSQL(dimension, schemaName = 'dbo')` of dimensional.ts. -/
def generateDimensionSQL (dimension : DimensionTable) (schemaName : String := "dbo") : String :=
  let sql := "-- Dimension Table: " ++ dimension.name ++ "\n"
  let sql := sql ++ "-- " ++ dimension.description.getD "" ++ "\n"
  let sql := sql ++ "CREATE TABLE [" ++ schemaName ++ "].[" ++ dimension.name ++ "] (\n"
  let sql := sql ++ String.intercalate ",\n" (dimension.columns.map dimColumnLine)
  let sql := sql ++ "\n);\n"
  let sql := if dimension.naturalKey.length > 0 then
      sql ++ "\nCREATE UNIQUE INDEX IX_" ++ dimension.name ++ "_NK ON [" ++ schemaName
        ++ "].[" ++ dimension.name ++ "] (" ++ String.intercalate ", " dimension.naturalKey
        ++ ");\n"
    else sql
  if dimension.scdType = 2 then
    sql ++ "CREATE INDEX IX_" ++ dimension.name ++ "_Current ON [" ++ schemaName ++ "].["
      ++ dimension.name ++ "] (IsCurrent) WHERE IsCurrent = 1;\n"
  else sql

/-- The SCD Type 2 columns pushed onto `standardColumns` when `scdType === 2`. -/
def scd2Columns : List DimensionColumn :=
  [ { name := "EffectiveDate", dataType := "DATE",
      description := some "Date when this record became effective" },
    { name := "ExpiryDate", dataType := "DATE",
      description := some "Date when this record expires" },
    { name := "IsCurrent", dataType := "BIT",
      description := some "Flag indicating if this is the current record" },
    { name := "RecordVersion", dataType := "INT",
      description := some "Version number of this record" } ]

/-- The four audit columns pushed onto `standardColumns` for every dimension. -/
def dimAuditColumns : List DimensionColumn :=
  [ { name := "CreatedDate", dataType := "DATETIME2",
      description := some "Date when record was created" },
    { name := "ModifiedDate", dataType := "DATETIME2",
      description := some "Date when record was last modified" },
    { name := "CreatedBy", dataType := "NVARCHAR(100)",
      description := some "User who created the record" },
    { name := "ModifiedBy", dataType := "NVARCHAR(100)",
      description := some "User who last modified the record" } ]

/-- The surrogate-key column prepended to every dimension. -/
def surrogateKeyColumn (surrogateKey : String) : DimensionColumn :=
  { name := surrogateKey, dataType := "BIGINT IDENTITY(1,1)", isPrimaryKey := some true,
    description := some "Surrogate key for the dimension" }

/-- Result record of `generateDimensionTable`. -/
structure DimGenResult where
  dimensionTable : DimensionTable
  sqlScript : String
  message : String
deriving Repr, DecidableEq

/-- `generateDimensionTable(tableName, businessName, columns, options)` of
dimensional.ts: prepend the surrogate-key column, the SCD-2 block when
`scdType = 2`, the audit block, then the caller's business columns. -/
def generateDimensionTable (tableName businessName : String)
    (columns : List DimensionColumn) (options : DimOptions := {}) : DimGenResult :=
  let scdType := options.scdType.getD 2
  let naturalKey := options.naturalKey.getD []
  let surrogateKey := options.surrogateKey.getD (tableName ++ "_SK")
  let description := options.description.getD ""
  let standardColumns : List DimensionColumn := [surrogateKeyColumn surrogateKey]
  let standardColumns := standardColumns ++ (if scdType = 2 then scd2Columns else [])
  let standardColumns := standardColumns ++ dimAuditColumns
  let dimensionTable : DimensionTable :=
    { name := tableName, businessName := businessName, description := some description,
      columns := standardColumns ++ columns, scdType := scdType,
      naturalKey := naturalKey, surrogateKey := surrogateKey }
  { dimensionTable := dimensionTable,
    sqlScript := generateDimensionSQL dimensionTable,
    message := "Dimension table " ++ tableName ++ " generated successfully" }

/-! ## Fact synthesis (DimensionalModelingTools.generateFactTable) -/

/-- Options bag of `generateFactTable`. -/
structure FactOptions where
  grainDescription : Option String := none
  description : Option String := none
  partitionColumn : Option String := none
deriving Repr, DecidableEq

/-- One rendered column line of the fact DDL. -/
def factColumnLine (col : FactColumn) : String :=
  let d0 := "    [" ++ col.name ++ "] " ++ col.dataType
  if col.description.getD "" = "" then d0 else d0 ++ " -- " ++ col.description.getD ""

/-- The per-dimension-key index statements of the fact DDL: the renderer
iterates `fact.dimensionKeys` and emits one `CREATE INDEX` per entry. -/
def factKeyIndexStatements (fact : FactTable) (schemaName : String) : List String :=
  fact.dimensionKeys.map (fun dimKey =>
    "\nCREATE INDEX IX_" ++ fact.name ++ "_" ++ dimKey ++ " ON [" ++ schemaName ++ "].["
      ++ fact.name ++ "] ([" ++ dimKey ++ "]);\n")

/-- `generateFactSQL(fact, partitionColumn = 'DateKey', schemaName = 'dbo')` of
dimensional.ts (the `partitionColumn` argument is accepted but never read by
the body, exactly as in the source). -/
def generateFactSQL (fact : FactTable) (partitionColumn : String := "DateKey")
    (schemaName : String := "dbo") : String :=
  let _ := partitionColumn
  let sql := "-- Fact Table: " ++ fact.name ++ "\n"
  let sql := sql ++ "-- " ++ fact.description.getD "" ++ "\n"
  let sql := sql ++ "-- Grain: " ++ fact.grainDescription ++ "\n"
  let sql := sql ++ "CREATE TABLE [" ++ schemaName ++ "].[" ++ fact.name ++ "] (\n"
  let sql := sql ++ String.intercalate ",\n" (fact.columns.map factColumnLine)
  let sql := sql ++ "\n) ON [PRIMARY];\n"
  let sql := sql ++ String.join (factKeyIndexStatements fact schemaName)
  sql ++ "\nCREATE COLUMNSTORE INDEX CCI_" ++ fact.name ++ " ON [" ++ schemaName ++ "].["
    ++ fact.name ++ "];\n"

/-- The `FactKey` surrogate column prepended to every fact table. -/
def factKeyColumn : FactColumn :=
  { name := "FactKey", dataType := "BIGINT IDENTITY(1,1)",
    description := some "Surrogate key for the fact table" }

/-- The foreign-key column appended for one entry of `dimensionKeys` (the
description strips the first occurrence of `"Key"` from the key name via
JavaScript `replace`). -/
def dimKeyColumn (dimKey : String) : FactColumn :=
  { name := dimKey, dataType := "BIGINT",
    description := some ("Foreign key to " ++ jsReplaceFirst dimKey "Key" "" ++ " dimension") }

/-- The `DateKey` column auto-added when `dimensionKeys` does not contain it. -/
def autoDateKeyColumn : FactColumn :=
  { name := "DateKey", dataType := "INT",
    description := some "Foreign key to Date dimension (YYYYMMDD format)" }

/-- The two audit columns appended to every fact table. -/
def factAuditColumns : List FactColumn :=
  [ { name := "CreatedDate", dataType := "DATETIME2",
      description := some "Date when record was created" },
    { name := "ETLBatchId", dataType := "BIGINT",
      description := some "ETL batch identifier" } ]

/-- Result record of `generateFactTable`. -/
structure FactGenResult where
  factTable : FactTable
  sqlScript : String
  message : String
deriving Repr, DecidableEq

/-- `generateFactTable(tableName, businessName, measures, dimensionKeys,
options)` of dimensional.ts: `FactKey`, one `BIGINT` foreign key per entry of
`dimensionKeys`, an `INT` `DateKey` when absent from `dimensionKeys`, the two
audit columns, then the caller's measure columns. -/
def generateFactTable (tableName businessName : String) (measures : List FactColumn)
    (dimensionKeys : List String) (options : FactOptions := {}) : FactGenResult :=
  let grainDescription := options.grainDescription.getD "One row per transaction"
  let description := options.description.getD ""
  let partitionColumn := options.partitionColumn.getD "DateKey"
  let standardColumns : List FactColumn := [factKeyColumn]
  let standardColumns := standardColumns ++ dimensionKeys.map dimKeyColumn
  let standardColumns := standardColumns ++
    (if dimensionKeys.contains "DateKey" then [] else [autoDateKeyColumn])
  let standardColumns := standardColumns ++ factAuditColumns
  let factTable : FactTable :=
    { name := tableName, businessName := businessName, description := some description,
      columns := standardColumns ++ measures,
      measures := (measures.filter (fun m => m.isMeasure.getD false)).map (·.name),
      dimensionKeys := dimensionKeys, grainDescription := grainDescription }
  { factTable := factTable,
    sqlScript := generateFactSQL factTable partitionColumn,
    message := "Fact table " ++ tableName ++ " generated successfully" }

/-! ## Star schema validation (DimensionalModelingTools.validateStarSchema) -/

/-- The mutable `validationResults` record of `validateStarSchema`. -/
structure ValidationResults where
  isValid : Bool
  warnings : List String
  errors : List String
deriving Repr, DecidableEq

/-- Error message pushed when a fact dimension key resolves to no dimension. -/
def dimNotDefinedError (dimensionName : String) : String :=
  "Fact table references dimension " ++ dimensionName ++ " which is not defined"

/-- Error message pushed for an SCD Type 2 dimension missing required columns. -/
def scdMissingError (dimName : String) : String :=
  "SCD Type 2 dimension " ++ dimName ++ " is missing required SCD columns"

/-- `const dimensionName = dimKey.replace('Key', '')` of the validator: the
first occurrence of `"Key"` is removed, wherever it occurs. -/
def resolveDimensionName (dimKey : String) : String := jsReplaceFirst dimKey "Key" ""

/-- Loop body of the dimension-relationship check: case-insensitive lookup of
the resolved name among dimension names, error on no match. -/
def dimKeyCheck (dims : List DimensionTable) (r : ValidationResults) (dimKey : String) :
    ValidationResults :=
  match dims.find? (fun dim =>
      jsToLower dim.name = jsToLower (resolveDimensionName dimKey)) with
  | some _ => r
  | none =>
    { r with
      errors := r.errors ++ [dimNotDefinedError (resolveDimensionName dimKey)],
      isValid := false }

/-- The natural-key warning of the per-dimension check. -/
def dimTableCheckNK (r : ValidationResults) (dim : DimensionTable) : ValidationResults :=
  if dim.naturalKey.length = 0 then
    { r with warnings := r.warnings ++
        ["Dimension " ++ dim.name ++ " has no natural key defined"] }
  else r

/-- `hasRequiredSCDColumns` of the per-dimension check. -/
def hasRequiredSCDColumns (dim : DimensionTable) : Bool :=
  ["EffectiveDate", "ExpiryDate", "IsCurrent"].all (fun col =>
    dim.columns.any (fun dimCol => dimCol.name = col))

/-- The required-SCD-columns error of the per-dimension check. -/
def dimTableCheckSCD (r : ValidationResults) (dim : DimensionTable) : ValidationResults :=
  if dim.scdType = 2 then
    if hasRequiredSCDColumns dim then r
    else { r with errors := r.errors ++ [scdMissingError dim.name], isValid := false }
  else r

/-- Loop body of the per-dimension check: natural-key warning, then the
required-SCD-columns error for `scdType === 2`. -/
def dimTableCheck (r : ValidationResults) (dim : DimensionTable) : ValidationResults :=
  dimTableCheckSCD (dimTableCheckNK r dim) dim

/-- `validateStarSchema(starSchema)` of dimensional.ts: measures warning, then
the dimension-key relationship loop, then the per-dimension loop. -/
def validateStarSchema (starSchema : StarSchema) : ValidationResults :=
  let r0 : ValidationResults := { isValid := true, warnings := [], errors := [] }
  let r1 :=
    if starSchema.factTable.measures.length = 0 then
      { r0 with warnings := r0.warnings ++ ["Fact table has no measures defined"] }
    else r0
  let r2 := starSchema.factTable.dimensionKeys.foldl
    (dimKeyCheck starSchema.dimensionTables) r1
  starSchema.dimensionTables.foldl dimTableCheck r2

/-- Result wrapper of `validateStarSchema` (`message` chosen from `isValid`). -/
structure ValidateResult where
  validationResults : ValidationResults
  message : String
deriving Repr, DecidableEq

/-- The full return value of `validateStarSchema`. -/
def validateStarSchemaResult (starSchema : StarSchema) : ValidateResult :=
  let validationResults := validateStarSchema starSchema
  { validationResults := validationResults,
    message := if validationResults.isValid then "Star schema validation passed"
      else "Star schema validation failed" }

/-! ## Pipeline model (src/tools/fabricpipelines.ts, interfaces)

`typeProperties`, `inputs` and `outputs` are opaque records the builder never
inspects (spec, Data Model: "kind-specific properties (opaque to the builder —
it only manages identity and edges)"); the embedding tracks the identity and
edge data: name, activity kind, and `dependsOn`. -/

/-- The activity kinds of `PipelineActivity.type`. -/
inductive ActivityType where
  | Copy | DataFlow | Notebook | SparkJob | Lookup | IfCondition | ForEach | Wait | Execute
deriving Repr, DecidableEq

/-- `PipelineActivity` of fabricpipelines.ts (identity-and-edge part). -/
structure PipelineActivity where
  name : String
  type : ActivityType
  description : Option String := none
  dependsOn : Option (List String) := none
deriving Repr, DecidableEq

/-- `PipelineDefinition` of fabricpipelines.ts (parameters/variables are
opaque maps the builder only stores; not modelled). -/
structure PipelineDefinition where
  name : String
  description : Option String := none
  activities : List PipelineActivity
deriving Repr, DecidableEq

/-- The dependency names of an activity (`dependsOn?.map(...) || []`: an
absent `dependsOn` means no predecessors). -/
def activityDeps (a : PipelineActivity) : List String := a.dependsOn.getD []

/-- The backward-reference discipline of a pipeline's activity list: walking
the list front to back with the set of already-seen names, every `dependsOn`
entry of every activity must name an activity that occurs strictly earlier,
and must differ from the activity's own name. -/
def depsWellFormed (seen : List String) : List PipelineActivity → Bool
  | [] => true
  | a :: rest =>
    (activityDeps a).all (fun d => seen.contains d && d != a.name)
      && depsWellFormed (seen ++ [a.name]) rest

/-! ## Pipeline graph builders (FabricPipelineOrchestrator)

Each `create*Pipeline` method of the source builds a `PipelineDefinition` and
hands it to `createDataPipeline` (the network upsert, an external
collaborator). The embeddings below are those definitions. -/

/-- The initial `LookupExistingRecords` activity of the dimension load. -/
def lookupExistingRecordsActivity (dimensionName : String) : PipelineActivity :=
  { name := "LookupExistingRecords", type := .Lookup,
    description := some ("Lookup existing records in " ++ dimensionName) }

/-- The SCD-2 `DataFlow` activity of the dimension load. -/
def processSCDType2Activity (dimensionName : String) : PipelineActivity :=
  { name := "ProcessSCDType2", type := .DataFlow,
    description := some ("Process SCD Type 2 for " ++ dimensionName),
    dependsOn := some ["LookupExistingRecords"] }

/-- The SCD-1 upsert `Copy` activity of the dimension load. -/
def upsertDimensionActivity (dimensionName : String) : PipelineActivity :=
  { name := "UpsertDimension", type := .Copy,
    description := some ("Upsert records in " ++ dimensionName),
    dependsOn := some ["LookupExistingRecords"] }

/-- `createDimensionLoadPipeline(dimensionName, sourceDataset, targetDataset,
naturalKeys, scdType = 2)`: a `Lookup` with no dependency, then either the
SCD-2 `DataFlow` or the SCD-1 upsert `Copy`, each depending on the lookup. -/
def createDimensionLoadPipeline (dimensionName sourceDataset targetDataset : String)
    (naturalKeys : List String) (scdType : Nat := 2) : PipelineDefinition :=
  let _ := (sourceDataset, targetDataset, naturalKeys)
  let activities : List PipelineActivity := [lookupExistingRecordsActivity dimensionName]
  let activities := activities ++
    (if scdType = 2 then [processSCDType2Activity dimensionName]
     else [upsertDimensionActivity dimensionName])
  { name := "pl_Load_" ++ dimensionName,
    description := some ("Load " ++ dimensionName ++ " dimension with SCD Type "
      ++ toString scdType),
    activities := activities }

/-- One entry of `dimensionMappings` of `createFactLoadPipeline`. -/
structure DimensionMapping where
  source : String
  dimension : String
  naturalKey : List String
deriving Repr, DecidableEq

/-- The per-mapping dimension-key `Lookup` activity of the fact load. -/
def factLookupActivity (mapping : DimensionMapping) : PipelineActivity :=
  { name := "Lookup" ++ mapping.dimension, type := .Lookup,
    description := some ("Lookup " ++ mapping.dimension ++ " keys") }

/-- The `TransformFactData` activity, depending on every dimension lookup. -/
def transformFactDataActivity (factName : String) (dimensionMappings : List DimensionMapping) :
    PipelineActivity :=
  { name := "TransformFactData", type := .DataFlow,
    description := some ("Transform and load " ++ factName ++ " fact table"),
    dependsOn := some (dimensionMappings.map (fun mapping => "Lookup" ++ mapping.dimension)) }

/-- The final `LoadFactTable` activity, depending on the transform. -/
def loadFactTableActivity (factName : String) : PipelineActivity :=
  { name := "LoadFactTable", type := .Copy,
    description := some ("Load " ++ factName ++ " fact table"),
    dependsOn := some ["TransformFactData"] }

/-- `createFactLoadPipeline(factName, sourceDataset, targetDataset,
dimensionMappings)`: one independent `Lookup` per mapping, a `DataFlow`
transform depending on all lookups, and a `Copy` load depending on the
transform. -/
def createFactLoadPipeline (factName sourceDataset targetDataset : String)
    (dimensionMappings : List DimensionMapping) : PipelineDefinition :=
  let _ := (sourceDataset, targetDataset)
  let activities : List PipelineActivity := dimensionMappings.map factLookupActivity
  let activities := activities ++ [transformFactDataActivity factName dimensionMappings]
  let activities := activities ++ [loadFactTableActivity factName]
  { name := "pl_Load_" ++ factName,
    description := some ("Load " ++ factName ++ " fact table with dimension lookups"),
    activities := activities }

/-- Options bag of `createMasterPipeline`. -/
structure MasterOptions where
  sequential : Option Bool := none
  failOnError : Option Bool := none
  description : Option String := none
deriving Repr, DecidableEq

/-- The sequential-branch `Execute` activity of the master pipeline for the
enumerated child `ip = (index, pipeline)`: index `> 0` depends on
`Execute_` of `childPipelines[index - 1]`, index `0` has no `dependsOn`. -/
def masterSeqActivity (childPipelines : List String) (ip : Nat × String) : PipelineActivity :=
  { name := "Execute_" ++ ip.2, type := .Execute,
    description := some ("Execute " ++ ip.2),
    dependsOn := if ip.1 > 0 then some ["Execute_" ++ childPipelines.getD (ip.1 - 1) ""]
      else none }

/-- The parallel-branch `Execute` activity of the master pipeline. -/
def masterParActivity (pipeline : String) : PipelineActivity :=
  { name := "Execute_" ++ pipeline, type := .Execute,
    description := some ("Execute " ++ pipeline) }

/-- `createMasterPipeline(name, childPipelines, options)`: one `Execute` per
child; when `sequential`, a linear chain, otherwise fully parallel
(`failOnError` is carried as metadata only and read nowhere). -/
def createMasterPipeline (name : String) (childPipelines : List String)
    (options : MasterOptions := {}) : PipelineDefinition :=
  let sequential := options.sequential.getD false
  let description := options.description.getD ""
  let activities : List PipelineActivity :=
    if sequential then childPipelines.enum.map (masterSeqActivity childPipelines)
    else childPipelines.map masterParActivity
  { name := name,
    description := some (if description = "" then
        "Master pipeline orchestrating: " ++ String.intercalate ", " childPipelines
      else description),
    activities := activities }

/-- The activity list of a master pipeline (the graph part of its
definition). -/
def masterActivities (name : String) (childPipelines : List String)
    (options : MasterOptions) : List PipelineActivity :=
  (createMasterPipeline name childPipelines options).activities

/-- The per-dimension-pipeline `Execute` activity of the star-schema ETL. -/
def starDimActivity (pipeline : String) : PipelineActivity :=
  { name := "Load_" ++ pipeline, type := .Execute,
    description := some ("Load " ++ pipeline ++ " dimension") }

/-- The per-fact-pipeline `Execute` activity, depending on every dimension
activity. -/
def starFactActivity (dimensionPipelines : List String) (pipeline : String) :
    PipelineActivity :=
  { name := "Load_" ++ pipeline, type := .Execute,
    description := some ("Load " ++ pipeline ++ " fact table"),
    dependsOn := some (dimensionPipelines.map (fun dim => "Load_" ++ dim)) }

/-- The trailing quality-check `Lookup`, depending on every fact activity. -/
def dataQualityCheckActivity (factPipelines : List String) : PipelineActivity :=
  { name := "DataQualityCheck", type := .Lookup,
    description := some "Perform data quality checks",
    dependsOn := some (factPipelines.map (fun fact => "Load_" ++ fact)) }

/-- `createStarSchemaETLPipeline(starSchemaName, dimensionPipelines,
factPipelines)`: parallel `Execute` per dimension pipeline; `Execute` per fact
pipeline depending on every dimension activity; one trailing
`DataQualityCheck` `Lookup` depending on every fact activity. -/
def createStarSchemaETLPipeline (starSchemaName : String)
    (dimensionPipelines factPipelines : List String) : PipelineDefinition :=
  let activities : List PipelineActivity := dimensionPipelines.map starDimActivity
  let activities := activities ++ factPipelines.map (starFactActivity dimensionPipelines)
  let activities := activities ++ [dataQualityCheckActivity factPipelines]
  { name := "pl_" ++ starSchemaName ++ "_ETL",
    description := some ("Complete ETL pipeline for " ++ starSchemaName ++ " star schema"),
    activities := activities }

/-- The activity list of a star-schema ETL pipeline (the graph part of its
definition). -/
def starETLActivities (starSchemaName : String) (dimensionPipelines factPipelines :
    List String) : List PipelineActivity :=
  (createStarSchemaETLPipeline starSchemaName dimensionPipelines factPipelines).activities

/-! ## Batch deployment (FabricPipelineOrchestrator.deployPipelinePackage)

`deployPipelinePackage` loops over `dataFlows` then `pipelines`, calling the
external execution service (`createDataFlow` / `createDataPipeline`) per item
inside a try/catch. The service's per-item outcomes are taken as explicit
oracles (`Except String Unit`: `error` is the caught exception's message),
and the embedding additionally returns the ordered trace of service calls so
that the attempt order is a provable artifact. -/

/-- Data flow source of fabricpipelines.ts. -/
structure DataFlowSource where
  name : String
  dataset : String
  transform : Option String := none
deriving Repr, DecidableEq

/-- Data flow sink of fabricpipelines.ts. -/
structure DataFlowSink where
  name : String
  dataset : String
  transform : Option String := none
deriving Repr, DecidableEq

/-- `DataFlowDefinition` of fabricpipelines.ts. -/
structure DataFlowDefinition where
  name : String
  description : Option String := none
  sources : List DataFlowSource
  sinks : List DataFlowSink
  transformScripts : List String
deriving Repr, DecidableEq

/-- One call to the external execution service during batch deployment. -/
inductive DeployAttempt where
  | dataflow (name : String)
  | pipeline (name : String)
deriving Repr, DecidableEq

/-- The accumulating `deploymentResults` record of `deployPipelinePackage`. -/
structure DeploymentResults where
  packageName : String
  deployedPipelines : List String
  deployedDataFlows : List String
  errors : List String
deriving Repr, DecidableEq

/-- Loop body for one data flow: attempt the service call, record the name on
success or the per-item error message on failure, and log the attempt. -/
def deployDataFlowStep (dataFlowOutcome : DataFlowDefinition → Except String Unit)
    (acc : DeploymentResults × List DeployAttempt) (dataFlow : DataFlowDefinition) :
    DeploymentResults × List DeployAttempt :=
  let (r, trace) := acc
  let trace := trace ++ [DeployAttempt.dataflow dataFlow.name]
  match dataFlowOutcome dataFlow with
  | .ok _ => ({ r with deployedDataFlows := r.deployedDataFlows ++ [dataFlow.name] }, trace)
  | .error e =>
    ({ r with errors := r.errors ++
        ["Failed to deploy data flow " ++ dataFlow.name ++ ": " ++ e] }, trace)

/-- Loop body for one pipeline, after all data flows. -/
def deployPipelineStep (pipelineOutcome : PipelineDefinition → Except String Unit)
    (acc : DeploymentResults × List DeployAttempt) (pipeline : PipelineDefinition) :
    DeploymentResults × List DeployAttempt :=
  let (r, trace) := acc
  let trace := trace ++ [DeployAttempt.pipeline pipeline.name]
  match pipelineOutcome pipeline with
  | .ok _ => ({ r with deployedPipelines := r.deployedPipelines ++ [pipeline.name] }, trace)
  | .error e =>
    ({ r with errors := r.errors ++
        ["Failed to deploy pipeline " ++ pipeline.name ++ ": " ++ e] }, trace)

/-- `deployPipelinePackage(packageName, pipelines, dataFlows)`: deploy every
data flow first, then every pipeline, accumulating successes and per-item
errors without ever aborting the batch. -/
def deployPipelinePackage (packageName : String) (pipelines : List PipelineDefinition)
    (dataFlows : List DataFlowDefinition)
    (dataFlowOutcome : DataFlowDefinition → Except String Unit)
    (pipelineOutcome : PipelineDefinition → Except String Unit) :
    DeploymentResults × List DeployAttempt :=
  let init : DeploymentResults × List DeployAttempt :=
    ({ packageName := packageName, deployedPipelines := [], deployedDataFlows := [],
       errors := [] }, [])
  let afterFlows := dataFlows.foldl (deployDataFlowStep dataFlowOutcome) init
  pipelines.foldl (deployPipelineStep pipelineOutcome) afterFlows

/-! ## Warehouse architecture (DataWarehouseManagement.createDataWarehouseArchitecture)

The source stamps the generated script with `new Date().toISOString()`; the
clock reading is the explicit `nowIso` argument of the embedding. -/

/-- The layer purposes of `DataWarehouseLayer.purpose`. -/
inductive LayerPurpose where
  | Raw | Staging | Cleansed | Curated | Mart
deriving Repr, DecidableEq

/-- `DataWarehouseLayer` of datawarehouse.ts. -/
structure DataWarehouseLayer where
  name : String
  description : String
  schemas : List String
  purpose : LayerPurpose
deriving Repr, DecidableEq

/-- `generateUtilityObjects()` of datawarehouse.ts: a constant script (error
log and ETL batch control tables). -/
def generateUtilityObjects : String :=
  "-- Utility Objects\n\n"
    ++ "CREATE TABLE [dbo].[ErrorLog] (\n"
    ++ "    ErrorLogID BIGINT IDENTITY(1,1) PRIMARY KEY,\n"
    ++ "    ErrorTime DATETIME2 NOT NULL DEFAULT GETDATE(),\n"
    ++ "    UserName NVARCHAR(128) NOT NULL DEFAULT SYSTEM_USER,\n"
    ++ "    ErrorNumber INT,\n"
    ++ "    ErrorSeverity INT,\n"
    ++ "    ErrorState INT,\n"
    ++ "    ErrorProcedure NVARCHAR(256),\n"
    ++ "    ErrorLine INT,\n"
    ++ "    ErrorMessage NVARCHAR(4000),\n"
    ++ "    ETLBatchID BIGINT\n"
    ++ ");\n\n"
    ++ "CREATE TABLE [dbo].[ETLBatchControl] (\n"
    ++ "    BatchID BIGINT IDENTITY(1,1) PRIMARY KEY,\n"
    ++ "    BatchName NVARCHAR(100) NOT NULL,\n"
    ++ "    StartTime DATETIME2 NOT NULL DEFAULT GETDATE(),\n"
    ++ "    EndTime DATETIME2,\n"
    ++ "    Status NVARCHAR(20) NOT NULL DEFAULT 'Running',\n"
    ++ "    RecordsProcessed BIGINT DEFAULT 0,\n"
    ++ "    RecordsInserted BIGINT DEFAULT 0,\n"
    ++ "    RecordsUpdated BIGINT DEFAULT 0,\n"
    ++ "    RecordsDeleted BIGINT DEFAULT 0,\n"
    ++ "    ErrorMessage NVARCHAR(4000)\n"
    ++ ");\n\n"

/-- `generateAuditFramework()` of datawarehouse.ts: constant data-lineage
table script. -/
def generateAuditFramework : String :=
  "-- Audit Framework\n\n"
    ++ "CREATE TABLE [dbo].[DataLineage] (\n"
    ++ "    LineageID BIGINT IDENTITY(1,1) PRIMARY KEY,\n"
    ++ "    SourceSystem NVARCHAR(100) NOT NULL,\n"
    ++ "    SourceTable NVARCHAR(256) NOT NULL,\n"
    ++ "    SourceColumn NVARCHAR(128),\n"
    ++ "    TargetSystem NVARCHAR(100) NOT NULL,\n"
    ++ "    TargetTable NVARCHAR(256) NOT NULL,\n"
    ++ "    TargetColumn NVARCHAR(128),\n"
    ++ "    TransformationRule NVARCHAR(MAX),\n"
    ++ "    BusinessRule NVARCHAR(MAX),\n"
    ++ "    CreatedDate DATETIME2 NOT NULL DEFAULT GETDATE(),\n"
    ++ "    CreatedBy NVARCHAR(100) NOT NULL DEFAULT SYSTEM_USER\n"
    ++ ");\n\n"

/-- `generateLineageTracking()` of datawarehouse.ts: constant lineage
procedure script. -/
def generateLineageTracking : String :=
  "-- Data Lineage Tracking Procedures\n\n"
    ++ "CREATE PROCEDURE [dbo].[TrackDataLineage]\n"
    ++ "    @SourceSystem NVARCHAR(100),\n"
    ++ "    @SourceTable NVARCHAR(256),\n"
    ++ "    @SourceColumn NVARCHAR(128) = NULL,\n"
    ++ "    @TargetSystem NVARCHAR(100),\n"
    ++ "    @TargetTable NVARCHAR(256),\n"
    ++ "    @TargetColumn NVARCHAR(128) = NULL,\n"
    ++ "    @TransformationRule NVARCHAR(MAX) = NULL,\n"
    ++ "    @BusinessRule NVARCHAR(MAX) = NULL\n"
    ++ "AS\nBEGIN\n"
    ++ "    INSERT INTO [dbo].[DataLineage] (\n"
    ++ "        SourceSystem, SourceTable, SourceColumn,\n"
    ++ "        TargetSystem, TargetTable, TargetColumn,\n"
    ++ "        TransformationRule, BusinessRule\n"
    ++ "    )\n"
    ++ "    VALUES (\n"
    ++ "        @SourceSystem, @SourceTable, @SourceColumn,\n"
    ++ "        @TargetSystem, @TargetTable, @TargetColumn,\n"
    ++ "        @TransformationRule, @BusinessRule\n"
    ++ "    );\n"
    ++ "END;\n\n"

/-- The per-layer section of the architecture script (the nested `forEach`
over layers and their schemas). -/
def layerSection (layer : DataWarehouseLayer) : String :=
  let purposeText := match layer.purpose with
    | .Raw => "Raw" | .Staging => "Staging" | .Cleansed => "Cleansed"
    | .Curated => "Curated" | .Mart => "Mart"
  "-- " ++ purposeText ++ " Layer: " ++ layer.name ++ "\n"
    ++ "-- " ++ layer.description ++ "\n"
    ++ String.join (layer.schemas.map (fun schema =>
        "IF NOT EXISTS (SELECT * FROM sys.schemas WHERE name = '" ++ schema ++ "')\n"
          ++ "    EXEC('CREATE SCHEMA [" ++ schema ++ "]')\nGO\n\n"))

/-- Result record of `createDataWarehouseArchitecture`. -/
structure ArchitectureResult where
  dwName : String
  layers : List DataWarehouseLayer
  sqlScript : String
  message : String
deriving Repr, DecidableEq

/-- `createDataWarehouseArchitecture(dwName, layers)` of datawarehouse.ts;
`nowIso` is the `new Date().toISOString()` reading the source interpolates
into the script header. -/
def createDataWarehouseArchitecture (dwName : String) (layers : List DataWarehouseLayer)
    (nowIso : String) : ArchitectureResult :=
  let sql := "-- Data Warehouse Architecture: " ++ dwName ++ "\n"
  let sql := sql ++ "-- Created on: " ++ nowIso ++ "\n\n"
  let sql := sql ++ "IF NOT EXISTS (SELECT * FROM sys.databases WHERE name = '"
    ++ dwName ++ "')\n"
  let sql := sql ++ "BEGIN\n"
  let sql := sql ++ "    CREATE DATABASE [" ++ dwName ++ "]\n"
  let sql := sql ++ "END\nGO\n\n"
  let sql := sql ++ "USE [" ++ dwName ++ "]\nGO\n\n"
  let sql := sql ++ String.join (layers.map layerSection)
  let sql := sql ++ generateUtilityObjects
  let sql := sql ++ generateAuditFramework
  let sql := sql ++ generateLineageTracking
  { dwName := dwName, layers := layers, sqlScript := sql,
    message := "Data warehouse architecture for " ++ dwName ++ " generated successfully" }

/-! ## Auxiliary definitions for the verification: concrete example
inputs, the well-formedness predicates, and decompositions named for the
theorems below -/

/-- Default activity used with `List.getD` in indexed statements. -/
def noActivity : PipelineActivity := { name := "", type := .Wait }

/-- The isValid flag always equals emptiness of the error list: every
mutation of `validationResults` either touches neither field, appends only a
warning, or appends an error while setting `isValid := false`. -/
def validInv (r : ValidationResults) : Prop := r.isValid = r.errors.isEmpty

/-- Spec-side resolver, following the spec's words: the validator is said to
resolve a fact dimension key "by stripping a trailing Key suffix"; this
definition strips `"Key"` only when it is a suffix, for comparison with the
source's first-occurrence `replace`. -/
def specStripTrailingKey (s : String) : String :=
  if 3 ≤ s.data.length ∧ s.data.drop (s.data.length - 3) = ['K', 'e', 'y'] then
    String.mk (s.data.take (s.data.length - 3))
  else s

/-- A dimension table named `AccountKey` (the name itself ends in `Key`). -/
def accountDimension : DimensionTable :=
  { name := "AccountKey", businessName := "Account",
    columns := [{ name := "AccountCode", dataType := "NVARCHAR(50)" }],
    scdType := 1, naturalKey := ["AccountCode"], surrogateKey := "AccountKey_SK" }

/-- A star schema whose only fact dimension key is `KeyAccountKey`: removing
the first occurrence of `Key` yields `AccountKey` (a defined dimension) while
stripping a trailing `Key` suffix yields `KeyAccount` (not defined). -/
def keyAccountKeySchema : StarSchema :=
  { name := "ExampleSchema",
    factTable :=
      { name := "FactBalance", businessName := "Balance", columns := [],
        measures := ["Amount"], dimensionKeys := ["KeyAccountKey"],
        grainDescription := "One row per account per day" },
    dimensionTables := [accountDimension] }

/-- A dimension table named `Customer`. -/
def customerDimension : DimensionTable :=
  { name := "Customer", businessName := "Customer",
    columns := [{ name := "CustomerCode", dataType := "NVARCHAR(50)" }],
    scdType := 1, naturalKey := ["CustomerCode"], surrogateKey := "Customer_SK" }

/-- A schema referencing `ProductKey` with only a `Customer` dimension. -/
def productCustomerSchema : StarSchema :=
  { name := "SalesSchema",
    factTable :=
      { name := "FactOrders", businessName := "Orders", columns := [],
        measures := ["Qty"], dimensionKeys := ["ProductKey"],
        grainDescription := "One row per order line" },
    dimensionTables := [customerDimension] }

/-- A schema whose fact table has no measures and no dimension keys. -/
def noMeasuresSchema : StarSchema :=
  { name := "EmptySchema",
    factTable :=
      { name := "FactEmpty", businessName := "Empty", columns := [],
        measures := [], dimensionKeys := [], grainDescription := "g" },
    dimensionTables := [] }

/-- Whether a service outcome is a success. -/
def exceptOk : Except String Unit → Bool
  | .ok _ => true
  | .error _ => false

/-- The message of a failed service outcome (empty for a success). -/
def exceptErrMsg : Except String Unit → String
  | .ok _ => ""
  | .error e => e

/-- The per-item error string recorded for a failed data flow. -/
def dataFlowErrorMsg (oc : DataFlowDefinition → Except String Unit)
    (dataFlow : DataFlowDefinition) : String :=
  "Failed to deploy data flow " ++ dataFlow.name ++ ": " ++ exceptErrMsg (oc dataFlow)

/-- The per-item error string recorded for a failed pipeline. -/
def pipelineErrorMsg (oc : PipelineDefinition → Except String Unit)
    (pipeline : PipelineDefinition) : String :=
  "Failed to deploy pipeline " ++ pipeline.name ++ ": " ++ exceptErrMsg (oc pipeline)

/-- The part of the architecture script before the interpolated clock
reading. -/
def archHeaderPre (dwName : String) : String :=
  "-- Data Warehouse Architecture: " ++ dwName ++ "\n" ++ "-- Created on: "

/-- The part of the architecture script after the interpolated clock reading:
a function of the declared arguments only. -/
def archAfterHeader (dwName : String) (layers : List DataWarehouseLayer) : String :=
  "\n\n"
    ++ ("IF NOT EXISTS (SELECT * FROM sys.databases WHERE name = '" ++ dwName ++ "')\n")
    ++ "BEGIN\n"
    ++ ("    CREATE DATABASE [" ++ dwName ++ "]\n")
    ++ "END\nGO\n\n"
    ++ ("USE [" ++ dwName ++ "]\nGO\n\n")
    ++ String.join (layers.map layerSection)
    ++ generateUtilityObjects
    ++ generateAuditFramework
    ++ generateLineageTracking

/-! ## General lemmas -/

/-- Extensionality for `String` via its character data. -/
theorem strExt {a b : String} (h : a.data = b.data) : a = b := by
  cases a; cases b; exact congrArg String.mk h

theorem strData_append (a b : String) : (a ++ b).data = a.data ++ b.data := by
  cases a; cases b; rfl

theorem strAppend_left_cancel {a b c : String} (h : a ++ b = a ++ c) : b = c := by
  have hd := congrArg String.data h
  rw [strData_append, strData_append] at hd
  exact strExt (List.append_cancel_left hd)


theorem strAppend_ne_of_ne {a b c : String} (h : b ≠ c) : a ++ b ≠ a ++ c :=
  fun hh => h (strAppend_left_cancel hh)

theorem loadName_ne_dataQualityCheck (s : String) : "Load_" ++ s ≠ "DataQualityCheck" := by
  intro h
  have hd := congrArg String.data h
  rw [show ("Load_" ++ s).data = 'L' :: 'o' :: 'a' :: 'd' :: '_' :: s.data from by
    cases s; rfl] at hd
  have hq : "DataQualityCheck".data = 'D' :: "ataQualityCheck".data := rfl
  rw [hq] at hd
  exact absurd (List.head_eq_of_cons_eq hd) (by decide)

theorem lookupName_ne_transformFactData (s : String) :
    "Lookup" ++ s ≠ "TransformFactData" := by
  intro h
  have hd := congrArg String.data h
  rw [show ("Lookup" ++ s).data = 'L' :: 'o' :: 'o' :: 'k' :: 'u' :: 'p' :: s.data from by
    cases s; rfl] at hd
  have hq : "TransformFactData".data = 'T' :: "ransformFactData".data := rfl
  rw [hq] at hd
  exact absurd (List.head_eq_of_cons_eq hd) (by decide)

theorem depsWellFormed_append (seen : List String) (l1 l2 : List PipelineActivity) :
    depsWellFormed seen (l1 ++ l2)
      = (depsWellFormed seen l1 && depsWellFormed (seen ++ l1.map (·.name)) l2) := by
  induction l1 generalizing seen with
  | nil => simp [depsWellFormed]
  | cons a l ih =>
    simp only [List.cons_append, depsWellFormed, List.map_cons]
    rw [show l.append l2 = l ++ l2 from rfl, ih (seen ++ [a.name]), Bool.and_assoc]
    simp [List.append_assoc]

theorem depsWellFormed_of_forall {seen : List String} {l : List PipelineActivity}
    (h : ∀ a ∈ l, ∀ d ∈ activityDeps a, d ∈ seen ∧ d ≠ a.name) :
    depsWellFormed seen l = true := by
  induction l generalizing seen with
  | nil => rfl
  | cons a l ih =>
    simp only [depsWellFormed, Bool.and_eq_true, List.all_eq_true]
    refine ⟨fun d hd => ?_, ih fun b hb d hd => ?_⟩
    · rcases h a (List.mem_cons_self a l) d hd with ⟨h1, h2⟩
      simp [h1, h2]
    · rcases h b (List.mem_cons_of_mem a hb) d hd with ⟨h1, h2⟩
      exact ⟨List.mem_append_left _ h1, h2⟩

theorem depsWellFormed_of_indexed {seen : List String} {l : List PipelineActivity}
    (h : ∀ i (hi : i < l.length), ∀ d ∈ activityDeps (l.get ⟨i, hi⟩),
      ((∃ j, ∃ hj : j < l.length, j < i ∧ (l.get ⟨j, hj⟩).name = d) ∨ d ∈ seen)
        ∧ d ≠ (l.get ⟨i, hi⟩).name) :
    depsWellFormed seen l = true := by
  induction l generalizing seen with
  | nil => rfl
  | cons a l ih =>
    simp only [depsWellFormed, Bool.and_eq_true, List.all_eq_true]
    constructor
    · intro d hd
      rcases h 0 (Nat.succ_pos _) d hd with ⟨h1, h2⟩
      have h3 : d ≠ a.name := by simpa using h2
      rcases h1 with ⟨j, hj, hlt, _⟩ | hseen
      · omega
      · simp [hseen, h3]
    · apply ih
      intro i hi d hd
      rcases h (i + 1) (by simpa using Nat.succ_lt_succ hi) d hd with ⟨h1, h2⟩
      refine ⟨?_, h2⟩
      rcases h1 with ⟨j, hj, hlt, hname⟩ | hseen
      · match j, hj with
        | 0, _ => exact Or.inr (by simp [← hname])
        | j + 1, hj =>
          exact Or.inl ⟨j, by omega, by omega, hname⟩
      · exact Or.inr (List.mem_append_left _ hseen)

theorem foldl_preserves {α β : Type} {P : β → Prop} {f : β → α → β}
    (hf : ∀ r x, P r → P (f r x)) :
    ∀ (l : List α) (r : β), P r → P (l.foldl f r)
  | [], _, h => h
  | x :: l, r, h => foldl_preserves hf l (f r x) (hf r x h)

/-! ## Backward-reference discipline of the pipeline builders -/

theorem dimensionLoad_depsWellFormed (dimensionName sourceDataset targetDataset : String)
    (naturalKeys : List String) (scdType : Nat) :
    depsWellFormed [] (createDimensionLoadPipeline dimensionName sourceDataset targetDataset
      naturalKeys scdType).activities = true := by
  by_cases h : scdType = 2 <;>
    simp [createDimensionLoadPipeline, h, depsWellFormed, activityDeps,
      lookupExistingRecordsActivity, processSCDType2Activity, upsertDimensionActivity]

theorem factLoad_depsWellFormed (factName sourceDataset targetDataset : String)
    (dms : List DimensionMapping) :
    depsWellFormed [] (createFactLoadPipeline factName sourceDataset targetDataset
      dms).activities = true := by
  unfold createFactLoadPipeline
  rw [depsWellFormed_append, depsWellFormed_append]
  have h1 : depsWellFormed [] (dms.map factLookupActivity) = true := by
    apply depsWellFormed_of_forall
    intro a ha d hd
    rcases List.mem_map.mp ha with ⟨m, _, rfl⟩
    simp [activityDeps, factLookupActivity] at hd
  have h2 : depsWellFormed ([] ++ (dms.map factLookupActivity).map (·.name))
      [transformFactDataActivity factName dms] = true := by
    apply depsWellFormed_of_forall
    intro a ha d hd
    rcases List.mem_singleton.mp ha with rfl
    simp only [transformFactDataActivity, activityDeps, Option.getD_some] at hd
    rcases List.mem_map.mp hd with ⟨m, hm, rfl⟩
    refine ⟨?_, lookupName_ne_transformFactData m.dimension⟩
    simp only [List.nil_append, List.map_map, List.mem_map]
    exact ⟨m, hm, rfl⟩
  rw [h1, h2]
  simp only [Bool.true_and]
  apply depsWellFormed_of_forall
  intro a ha d hd
  rcases List.mem_singleton.mp ha with rfl
  simp only [loadFactTableActivity, activityDeps, Option.getD_some,
    List.mem_singleton] at hd
  subst hd
  refine ⟨?_, ?_⟩
  · simp [transformFactDataActivity]
  · simp [loadFactTableActivity]

theorem masterPipeline_depsWellFormed (name : String) (children : List String)
    (options : MasterOptions) (h : children.Nodup) :
    depsWellFormed [] (createMasterPipeline name children options).activities = true := by
  unfold createMasterPipeline
  by_cases hseq : options.sequential.getD false
  · simp only [hseq, if_true]
    apply depsWellFormed_of_indexed
    intro i hi d hd
    have hlen : (children.enum.map (masterSeqActivity children)).length = children.length := by
      simp
    have hi2 : i < children.length := by rw [hlen] at hi; exact hi
    have hget : ∀ (j : Nat) (hj : j < children.length),
        (children.enum.map (masterSeqActivity children)).get ⟨j, by rw [hlen]; exact hj⟩
          = masterSeqActivity children (j, children.get ⟨j, hj⟩) := by
      intro j hj
      simp [List.get_eq_getElem, List.getElem_map, List.getElem_enum]
    rw [hget i hi2] at hd
    rw [hget i hi2]
    by_cases hizero : i > 0
    · simp only [masterSeqActivity, hizero, if_true, activityDeps, Option.getD_some,
        List.mem_singleton] at hd
      subst hd
      have hprev : i - 1 < children.length := by omega
      constructor
      · left
        refine ⟨i - 1, by rw [hlen]; exact hprev, by omega, ?_⟩
        rw [hget (i - 1) hprev]
        simp only [masterSeqActivity]
        rw [List.getD_eq_getElem children "" hprev]
        rfl
      · simp only [masterSeqActivity]
        apply strAppend_ne_of_ne
        rw [List.getD_eq_getElem children "" hprev]
        intro hc
        have hc2 : children.get ⟨i - 1, hprev⟩ = children.get ⟨i, hi2⟩ := by
          simpa [List.get_eq_getElem] using hc
        have hval : i - 1 = i := congrArg Fin.val (h.get_inj_iff.mp hc2)
        omega
    · simp [masterSeqActivity, hizero, activityDeps] at hd
  · simp only [hseq, if_false]
    apply depsWellFormed_of_forall
    intro a ha d hd
    rcases List.mem_map.mp ha with ⟨p, _, rfl⟩
    simp [masterParActivity, activityDeps] at hd

theorem starETL_depsWellFormed (starSchemaName : String) (D F : List String)
    (h : ∀ f ∈ F, f ∉ D) :
    depsWellFormed [] (createStarSchemaETLPipeline starSchemaName D F).activities = true := by
  unfold createStarSchemaETLPipeline
  rw [depsWellFormed_append, depsWellFormed_append]
  have h1 : depsWellFormed [] (D.map starDimActivity) = true := by
    apply depsWellFormed_of_forall
    intro a ha d hd
    rcases List.mem_map.mp ha with ⟨p, _, rfl⟩
    simp [starDimActivity, activityDeps] at hd
  have h2 : depsWellFormed ([] ++ (D.map starDimActivity).map (·.name))
      (F.map (starFactActivity D)) = true := by
    apply depsWellFormed_of_forall
    intro a ha d hd
    rcases List.mem_map.mp ha with ⟨f, hf, rfl⟩
    simp only [starFactActivity, activityDeps, Option.getD_some] at hd
    rcases List.mem_map.mp hd with ⟨dim, hdim, rfl⟩
    constructor
    · simp only [List.nil_append, List.map_map, List.mem_map]
      exact ⟨dim, hdim, rfl⟩
    · simp only [starFactActivity]
      apply strAppend_ne_of_ne
      intro hc
      exact h f hf (hc ▸ hdim)
  rw [h1, h2]
  simp only [Bool.true_and]
  apply depsWellFormed_of_forall
  intro a ha d hd
  rcases List.mem_singleton.mp ha with rfl
  simp only [dataQualityCheckActivity, activityDeps, Option.getD_some] at hd
  rcases List.mem_map.mp hd with ⟨f, hf, rfl⟩
  refine ⟨?_, loadName_ne_dataQualityCheck f⟩
  simp only [List.nil_append, List.map_append, List.map_map, List.mem_append, List.mem_map]
  right
  exact ⟨f, hf, rfl⟩

theorem getD_map {α β : Type} (f : α → β) (l : List α) (i : Nat) (hi : i < l.length)
    (d : β) : (l.map f).getD i d = f (l.get ⟨i, hi⟩) := by
  rw [List.getD_eq_getElem _ d (by simpa using hi), List.getElem_map]
  rfl

theorem getD_enum_map {α β : Type} (f : Nat × α → β) (l : List α) (i : Nat)
    (hi : i < l.length) (d : β) :
    (l.enum.map f).getD i d = f (i, l.get ⟨i, hi⟩) := by
  rw [List.getD_eq_getElem _ d (by simpa using hi), List.getElem_map, List.getElem_enum]
  rfl

/-! ## Claim theorems -/

/-- C1 counterexample: the claim quantifies over every input, but
`createMasterPipeline` with the duplicated child list `["A", "A"]` and
`sequential = true` emits a second activity named `Execute_A` whose
`dependsOn` contains `Execute_A` — its own name — so the name-based
dependency graph has a self-loop and the backward-reference discipline fails. -/
theorem c1_counterexample :
    depsWellFormed [] (createMasterPipeline "Master" ["A", "A"]
      { sequential := some true }).activities = false := by decide

/-- C1 (amended): for every builder and input, every `dependsOn` entry names
an activity strictly earlier in the activity list and never the activity
itself — unconditionally for the dimension-load and fact-load builders, and
for the master and star-schema-ETL builders provided the input pipeline-name
lists give the activities pairwise-distinct names (duplicate-free children;
no fact pipeline name also a dimension pipeline name). -/
theorem c1_amended :
    (∀ (dimensionName sourceDataset targetDataset : String) (naturalKeys : List String)
        (scdType : Nat),
      depsWellFormed [] (createDimensionLoadPipeline dimensionName sourceDataset
        targetDataset naturalKeys scdType).activities = true)
    ∧ (∀ (factName sourceDataset targetDataset : String) (dms : List DimensionMapping),
      depsWellFormed [] (createFactLoadPipeline factName sourceDataset targetDataset
        dms).activities = true)
    ∧ (∀ (name : String) (children : List String) (options : MasterOptions),
      children.Nodup →
        depsWellFormed [] (createMasterPipeline name children options).activities = true)
    ∧ (∀ (starSchemaName : String) (D F : List String), (∀ f ∈ F, f ∉ D) →
        depsWellFormed [] (createStarSchemaETLPipeline starSchemaName D F).activities
          = true) :=
  ⟨dimensionLoad_depsWellFormed, factLoad_depsWellFormed,
    masterPipeline_depsWellFormed, starETL_depsWellFormed⟩

/-- Witness for C1 (amended) at concrete inputs discharging both hypotheses. -/
theorem c1_amended_witness :
    (["DimA", "DimB"].Nodup
      ∧ depsWellFormed [] (createMasterPipeline "Master" ["DimA", "DimB"]
          { sequential := some true }).activities = true)
    ∧ ((∀ f ∈ ["FactC"], f ∉ ["DimA", "DimB"])
      ∧ depsWellFormed [] (createStarSchemaETLPipeline "Sales" ["DimA", "DimB"]
          ["FactC"]).activities = true) :=
  ⟨⟨by decide, c1_amended.2.2.1 "Master" ["DimA", "DimB"]
      { sequential := some true } (by decide)⟩,
    ⟨by decide, c1_amended.2.2.2 "Sales" ["DimA", "DimB"] ["FactC"] (by decide)⟩⟩

/-- C2: the star-schema-ETL definition has exactly `|D| + |F| + 1` activities:
the first `|D|` are dependency-free `Execute` activities named after the
dimension pipelines, the next `|F|` are `Execute` activities whose
`dependsOn` list is exactly the list of all dimension-activity names, and the
trailing `Lookup` quality check depends on exactly the list of all
fact-activity names. -/
theorem c2_starSchemaETL_shape (starSchemaName : String) (D F : List String) :
    (starETLActivities starSchemaName D F).length = D.length + F.length + 1
    ∧ (starETLActivities starSchemaName D F).map (·.name)
        = D.map (fun d => "Load_" ++ d) ++ F.map (fun f => "Load_" ++ f)
          ++ ["DataQualityCheck"]
    ∧ (∀ a ∈ (starETLActivities starSchemaName D F).take D.length,
        a.type = .Execute ∧ activityDeps a = [])
    ∧ (∀ a ∈ ((starETLActivities starSchemaName D F).drop D.length).take F.length,
        a.type = .Execute ∧ activityDeps a = D.map (fun d => "Load_" ++ d))
    ∧ (starETLActivities starSchemaName D F).drop (D.length + F.length)
        = [dataQualityCheckActivity F]
    ∧ (dataQualityCheckActivity F).type = .Lookup
    ∧ activityDeps (dataQualityCheckActivity F) = F.map (fun f => "Load_" ++ f) := by
  have hacts : starETLActivities starSchemaName D F
      = (D.map starDimActivity ++ F.map (starFactActivity D))
        ++ [dataQualityCheckActivity F] := rfl
  refine ⟨?_, ?_, ?_, ?_, ?_, rfl, rfl⟩
  · rw [hacts]; simp; omega
  · rw [hacts]
    simp [starDimActivity, starFactActivity, dataQualityCheckActivity, List.map_map,
      Function.comp_def]
  · intro a ha
    rw [hacts, List.append_assoc, List.take_left' (by simp)] at ha
    rcases List.mem_map.mp ha with ⟨p, _, rfl⟩
    exact ⟨rfl, rfl⟩
  · intro a ha
    rw [hacts, List.append_assoc, List.drop_left' (by simp),
      List.take_left' (by simp)] at ha
    rcases List.mem_map.mp ha with ⟨p, _, rfl⟩
    exact ⟨rfl, rfl⟩
  · rw [hacts, List.drop_left' (by simp)]

/-- Witness for C2 at `dimensionPipelines = [A, B]`, `factPipelines = [C]`:
4 activities, and the fact activity in the middle block depends on exactly
the two dimension-activity names. -/
theorem c2_starSchemaETL_shape_witness :
    ((starETLActivities "Sales" ["A", "B"] ["C"]).length = 2 + 1 + 1)
    ∧ starFactActivity ["A", "B"] "C"
        ∈ (((starETLActivities "Sales" ["A", "B"] ["C"]).drop
            (["A", "B"] : List String).length).take (["C"] : List String).length)
    ∧ (starFactActivity ["A", "B"] "C").type = .Execute
    ∧ activityDeps (starFactActivity ["A", "B"] "C")
        = (["A", "B"] : List String).map (fun d => "Load_" ++ d) :=
  ⟨(c2_starSchemaETL_shape "Sales" ["A", "B"] ["C"]).1, by decide,
    ((c2_starSchemaETL_shape "Sales" ["A", "B"] ["C"]).2.2.2.1
      (starFactActivity ["A", "B"] "C") (by decide)).1,
    ((c2_starSchemaETL_shape "Sales" ["A", "B"] ["C"]).2.2.2.1
      (starFactActivity ["A", "B"] "C") (by decide)).2⟩

/-- C7: the master pipeline with `sequential = true` is one `Execute`
activity per child forming a linear chain — the first activity has no
dependencies and activity `i > 0` depends exactly on activity `i-1`'s name —
while `sequential = false` yields one dependency-free `Execute` per child. -/
theorem c7_masterPipeline_chain (name : String) (children : List String)
    (fo : Option Bool) (ds : Option String) :
    (masterActivities name children
        { sequential := some true, failOnError := fo, description := ds }).length
      = children.length
    ∧ (masterActivities name children
          { sequential := some true, failOnError := fo, description := ds }).map (·.name)
        = children.map (fun c => "Execute_" ++ c)
    ∧ (0 < children.length →
        activityDeps ((masterActivities name children
          { sequential := some true, failOnError := fo,
            description := ds }).getD 0 noActivity) = [])
    ∧ (∀ i, i < children.length → 0 < i →
        activityDeps ((masterActivities name children
            { sequential := some true, failOnError := fo,
              description := ds }).getD i noActivity)
          = [((masterActivities name children
              { sequential := some true, failOnError := fo,
                description := ds }).getD (i - 1) noActivity).name])
    ∧ (masterActivities name children
        { sequential := some false, failOnError := fo, description := ds }).length
      = children.length
    ∧ (masterActivities name children
          { sequential := some false, failOnError := fo, description := ds }).map (·.name)
        = children.map (fun c => "Execute_" ++ c)
    ∧ (∀ a ∈ masterActivities name children
        { sequential := some false, failOnError := fo, description := ds },
        a.dependsOn = none) := by
  have hseq : masterActivities name children
      { sequential := some true, failOnError := fo, description := ds }
      = children.enum.map (masterSeqActivity children) := rfl
  have hpar : masterActivities name children
      { sequential := some false, failOnError := fo, description := ds }
      = children.map masterParActivity := rfl
  refine ⟨?_, ?_, ?_, ?_, ?_, ?_, ?_⟩
  · rw [hseq]; simp
  · rw [hseq]
    have : ∀ l : List (Nat × String),
        l.map (fun ip => (masterSeqActivity children ip).name)
          = l.map (fun ip => "Execute_" ++ ip.2) := by
      intro l; simp [masterSeqActivity]
    rw [List.map_map]
    calc (children.enum.map fun ip => (masterSeqActivity children ip).name)
        = children.enum.map (fun ip => "Execute_" ++ ip.2) := this children.enum
      _ = children.map (fun c => "Execute_" ++ c) := by
          have h2 : (fun ip : Nat × String => "Execute_" ++ ip.2)
              = (fun c => "Execute_" ++ c) ∘ Prod.snd := rfl
          rw [h2, ← List.map_map, List.enum_map_snd]
  · intro hl
    rw [hseq, getD_enum_map _ _ _ hl]
    simp [masterSeqActivity, activityDeps]
  · intro i hi hpos
    have hprev : i - 1 < children.length := by omega
    rw [hseq, getD_enum_map _ _ _ hi, getD_enum_map _ _ _ hprev]
    simp only [masterSeqActivity, hpos, if_true, activityDeps, Option.getD_some,
      gt_iff_lt]
    rw [List.getD_eq_getElem children "" hprev]
    simp [List.get_eq_getElem]
  · rw [hpar]; simp
  · rw [hpar]
    simp [masterParActivity, List.map_map, Function.comp]
  · intro a ha
    rw [hpar] at ha
    rcases List.mem_map.mp ha with ⟨p, _, rfl⟩
    rfl

/-- Witness for C7 at a concrete three-child pipeline, discharging the
index hypotheses at `i = 2`. -/
theorem c7_masterPipeline_chain_witness :
    ((2 : Nat) < (["A", "B", "C"] : List String).length ∧ (0 : Nat) < 2)
    ∧ activityDeps ((masterActivities "M" ["A", "B", "C"]
        { sequential := some true, failOnError := none,
          description := none }).getD 2 noActivity)
      = [((masterActivities "M" ["A", "B", "C"]
        { sequential := some true, failOnError := none,
          description := none }).getD 1 noActivity).name] :=
  ⟨⟨by decide, by decide⟩,
    (c7_masterPipeline_chain "M" ["A", "B", "C"] none none).2.2.2.1 2 (by decide) (by decide)⟩

/-- C3 counterexample: the claim quantifies over every input to fact
synthesis, but a caller-supplied measure column named `DateKey` (with
`DateKey` absent from `dimensionKeys`, so the auto-add fires) makes `DateKey`
occur twice in the resulting column list. -/
theorem c3_counterexample :
    (((generateFactTable "FactSales" "Sales"
        [{ name := "DateKey", dataType := "INT", isMeasure := some true }] []
        {}).factTable.columns.map (·.name)).count "DateKey") = 2 := by decide

/-- C3 (amended): fact synthesis returns the caller's `dimensionKeys` list
verbatim and in order, and — provided `DateKey` occurs at most once among
`dimensionKeys` and no caller-supplied measure column is named `DateKey` —
the column named `DateKey` occurs exactly once in the resulting column list,
whether or not the caller listed it among `dimensionKeys`. -/
theorem c3_fact_dateKey_once (tableName businessName : String)
    (measures : List FactColumn) (dimensionKeys : List String) (options : FactOptions) :
    let ft := (generateFactTable tableName businessName measures dimensionKeys
      options).factTable
    ft.dimensionKeys = dimensionKeys
    ∧ (dimensionKeys.count "DateKey" ≤ 1 → (∀ m ∈ measures, m.name ≠ "DateKey") →
        (ft.columns.map (·.name)).count "DateKey" = 1) := by
  intro ft
  refine ⟨rfl, ?_⟩
  intro h1 h2
  have hms : (measures.map (·.name)).count "DateKey" = 0 := by
    refine List.count_eq_zero.mpr ?_
    intro hx
    rcases List.mem_map.mp hx with ⟨m, hm, heq⟩
    exact h2 m hm heq
  have haudit : ((["CreatedDate", "ETLBatchId"] : List String).count "DateKey") = 0 := by
    decide
  have hnames : ft.columns.map (·.name)
      = (((["FactKey"] ++ dimensionKeys)
          ++ (if dimensionKeys.contains "DateKey" then [] else ["DateKey"]))
          ++ ["CreatedDate", "ETLBatchId"]) ++ measures.map (·.name) := by
    show ((generateFactTable tableName businessName measures dimensionKeys
      options).factTable.columns.map (·.name)) = _
    simp only [generateFactTable, List.map_append, List.map_map, Function.comp_def,
      factKeyColumn, dimKeyColumn, autoDateKeyColumn, factAuditColumns,
      apply_ite (List.map (fun c : FactColumn => c.name))]
    simp [List.map_id]
  rw [hnames]
  by_cases hmem : "DateKey" ∈ dimensionKeys
  · have hdk : dimensionKeys.count "DateKey" = 1 :=
      le_antisymm h1 (List.count_pos_iff.mpr hmem)
    rw [if_pos (by simpa using hmem)]
    simp [List.count_append, List.count_cons_of_ne, hdk, haudit, hms]
  · have hdk : dimensionKeys.count "DateKey" = 0 := List.count_eq_zero.mpr hmem
    rw [if_neg (by simpa using hmem)]
    simp [List.count_append, hdk, haudit, hms]

/-- C4: every dimension synthesis with effective `scdType = 2` produces a
column list that starts with the system-generated block — surrogate key first
and marked primary key, then `EffectiveDate`, `ExpiryDate`, `IsCurrent`,
`RecordVersion` and the four audit columns — followed by the caller's
business columns unchanged and in their given order. -/
theorem c4_dimension_scd2 (tableName businessName : String)
    (columns : List DimensionColumn) (options : DimOptions)
    (h : options.scdType.getD 2 = 2) :
    let dt := (generateDimensionTable tableName businessName columns options).dimensionTable
    ∃ sysCols, dt.columns = sysCols ++ columns
      ∧ sysCols.map (·.name)
          = [options.surrogateKey.getD (tableName ++ "_SK"), "EffectiveDate", "ExpiryDate",
             "IsCurrent", "RecordVersion", "CreatedDate", "ModifiedDate", "CreatedBy",
             "ModifiedBy"]
      ∧ ∃ sk rest, sysCols = sk :: rest
          ∧ sk.name = options.surrogateKey.getD (tableName ++ "_SK")
          ∧ sk.isPrimaryKey = some true := by
  intro dt
  refine ⟨[surrogateKeyColumn (options.surrogateKey.getD (tableName ++ "_SK"))]
      ++ scd2Columns ++ dimAuditColumns, ?_, ?_, ?_⟩
  · show (generateDimensionTable tableName businessName columns options).dimensionTable.columns
      = _
    simp [generateDimensionTable, h]
  · simp [surrogateKeyColumn, scd2Columns, dimAuditColumns]
  · exact ⟨_, _, rfl, rfl, rfl⟩

/-- Witness for C4 with the empty options bag (default `scdType = 2`). -/
theorem c4_dimension_scd2_witness :
    (DimOptions.scdType {}).getD 2 = 2
    ∧ ∃ sysCols,
        (generateDimensionTable "DimCustomer" "Customer" [] {}).dimensionTable.columns
          = sysCols ++ []
        ∧ sysCols.map (·.name)
            = [(DimOptions.surrogateKey {}).getD ("DimCustomer" ++ "_SK"), "EffectiveDate",
               "ExpiryDate", "IsCurrent", "RecordVersion", "CreatedDate", "ModifiedDate",
               "CreatedBy", "ModifiedBy"]
        ∧ ∃ sk rest, sysCols = sk :: rest
            ∧ sk.name = (DimOptions.surrogateKey {}).getD ("DimCustomer" ++ "_SK")
            ∧ sk.isPrimaryKey = some true :=
  ⟨rfl, c4_dimension_scd2 "DimCustomer" "Customer" [] {} rfl⟩

/-- C10: when the caller does not list `DateKey` in `dimensionKeys`, the
auto-added `DateKey` column has data type `INT` while every caller-listed
dimension foreign-key column has data type `BIGINT`; the auto-added `DateKey`
is not appended to the returned `dimensionKeys`, so the rendered fact DDL has
one per-key index per caller-listed key and none for `DateKey`. -/
theorem c10_fact_autoDateKey (tableName businessName : String)
    (measures : List FactColumn) (dimensionKeys : List String) (options : FactOptions)
    (h : "DateKey" ∉ dimensionKeys) :
    let ft := (generateFactTable tableName businessName measures dimensionKeys
      options).factTable
    ft.columns.map (·.name)
        = (((["FactKey"] ++ dimensionKeys) ++ ["DateKey"]) ++ ["CreatedDate", "ETLBatchId"])
          ++ measures.map (·.name)
    ∧ (∀ c ∈ (ft.columns.drop 1).take dimensionKeys.length, c.dataType = "BIGINT")
    ∧ ft.columns.drop (1 + dimensionKeys.length)
        = autoDateKeyColumn :: (factAuditColumns ++ measures)
    ∧ autoDateKeyColumn.dataType = "INT" ∧ autoDateKeyColumn.name = "DateKey"
    ∧ ft.dimensionKeys = dimensionKeys
    ∧ "DateKey" ∉ ft.dimensionKeys
    ∧ factKeyIndexStatements ft "dbo"
        = dimensionKeys.map (fun dimKey =>
            "\nCREATE INDEX IX_" ++ tableName ++ "_" ++ dimKey ++ " ON [" ++ "dbo" ++ "].["
              ++ tableName ++ "] ([" ++ dimKey ++ "]);\n") := by
  intro ft
  have hcols : ft.columns
      = factKeyColumn
        :: (dimensionKeys.map dimKeyColumn
          ++ (autoDateKeyColumn :: (factAuditColumns ++ measures))) := by
    show (generateFactTable tableName businessName measures dimensionKeys
      options).factTable.columns = _
    rw [generateFactTable]
    simp only [if_neg (show ¬ dimensionKeys.contains "DateKey" = true by simpa using h)]
    simp [List.append_assoc]
  refine ⟨?_, ?_, ?_, rfl, rfl, rfl, h, rfl⟩
  · rw [hcols]
    simp [factKeyColumn, dimKeyColumn, autoDateKeyColumn, factAuditColumns, List.map_map,
      Function.comp_def]
  · intro c hc
    rw [hcols] at hc
    simp only [List.drop_succ_cons, List.drop_zero] at hc
    rw [List.take_left' (by simp)] at hc
    rcases List.mem_map.mp hc with ⟨k, _, rfl⟩
    rfl
  · rw [hcols]
    have : 1 + dimensionKeys.length = dimensionKeys.length + 1 := Nat.add_comm _ _
    rw [this, List.drop_succ_cons, List.drop_left' (by simp)]

/-- Witness for C10 at a concrete fact table with two caller-listed keys. -/
theorem c10_fact_autoDateKey_witness :
    ("DateKey" ∉ (["CustomerKey", "ProductKey"] : List String))
    ∧ (generateFactTable "FactSales" "Sales" [] ["CustomerKey", "ProductKey"]
        {}).factTable.dimensionKeys = ["CustomerKey", "ProductKey"]
    ∧ factKeyIndexStatements
        (generateFactTable "FactSales" "Sales" [] ["CustomerKey", "ProductKey"]
          {}).factTable "dbo"
      = (["CustomerKey", "ProductKey"] : List String).map (fun dimKey =>
          "\nCREATE INDEX IX_" ++ "FactSales" ++ "_" ++ dimKey ++ " ON [" ++ "dbo" ++ "].["
            ++ "FactSales" ++ "] ([" ++ dimKey ++ "]);\n") :=
  ⟨by decide,
    (c10_fact_autoDateKey "FactSales" "Sales" [] ["CustomerKey", "ProductKey"] {}
      (by decide)).2.2.2.2.2.1,
    (c10_fact_autoDateKey "FactSales" "Sales" [] ["CustomerKey", "ProductKey"] {}
      (by decide)).2.2.2.2.2.2.2⟩

/-- Witness for C3 (amended) at a concrete fact synthesis. -/
theorem c3_fact_dateKey_once_witness :
    ((["CustomerKey"] : List String).count "DateKey" ≤ 1
      ∧ (∀ m ∈ ([] : List FactColumn), m.name ≠ "DateKey"))
    ∧ (generateFactTable "FactSales" "Sales" [] ["CustomerKey"] {}).factTable.dimensionKeys
        = ["CustomerKey"]
    ∧ (((generateFactTable "FactSales" "Sales" [] ["CustomerKey"]
        {}).factTable.columns.map (·.name)).count "DateKey") = 1 :=
  ⟨⟨by decide, by decide⟩,
    (c3_fact_dateKey_once "FactSales" "Sales" [] ["CustomerKey"] {}).1,
    (c3_fact_dateKey_once "FactSales" "Sales" [] ["CustomerKey"] {}).2 (by decide)
      (by decide)⟩

/-! ## Validator invariants (C5, C6) -/

theorem dimKeyCheck_validInv (dims : List DimensionTable) (r : ValidationResults)
    (k : String) (h : validInv r) : validInv (dimKeyCheck dims r k) := by
  unfold dimKeyCheck validInv
  split
  · exact h
  · simp

theorem dimTableCheckNK_validInv (r : ValidationResults) (dim : DimensionTable)
    (h : validInv r) : validInv (dimTableCheckNK r dim) := by
  unfold dimTableCheckNK validInv
  split
  · exact h
  · exact h

theorem dimTableCheck_validInv (r : ValidationResults) (dim : DimensionTable)
    (h : validInv r) : validInv (dimTableCheck r dim) := by
  unfold dimTableCheck dimTableCheckSCD
  have h1 := dimTableCheckNK_validInv r dim h
  split
  · split
    · exact h1
    · simp [validInv]
  · exact h1

theorem validateStarSchema_validInv (s : StarSchema) : validInv (validateStarSchema s) := by
  unfold validateStarSchema
  apply foldl_preserves (fun r x h => dimTableCheck_validInv r x h)
  apply foldl_preserves (fun r x h => dimKeyCheck_validInv s.dimensionTables r x h)
  split <;> rfl

theorem dimKeyCheck_errors_mono (dims : List DimensionTable) (r : ValidationResults)
    (k : String) : ∃ t, (dimKeyCheck dims r k).errors = r.errors ++ t := by
  unfold dimKeyCheck
  split
  · exact ⟨[], by simp⟩
  · exact ⟨_, rfl⟩

theorem dimTableCheckNK_errors (r : ValidationResults) (dim : DimensionTable) :
    (dimTableCheckNK r dim).errors = r.errors := by
  unfold dimTableCheckNK
  split <;> rfl

theorem dimTableCheck_errors_mono (r : ValidationResults) (dim : DimensionTable) :
    ∃ t, (dimTableCheck r dim).errors = r.errors ++ t := by
  unfold dimTableCheck dimTableCheckSCD
  split
  · split
    · exact ⟨[], by rw [dimTableCheckNK_errors]; simp⟩
    · exact ⟨[scdMissingError dim.name], by rw [dimTableCheckNK_errors]⟩
  · exact ⟨[], by rw [dimTableCheckNK_errors]; simp⟩

theorem foldl_errors_mono {α : Type} {step : ValidationResults → α → ValidationResults}
    (hstep : ∀ r x, ∃ t, (step r x).errors = r.errors ++ t) :
    ∀ (l : List α) (r : ValidationResults),
      ∃ t, (l.foldl step r).errors = r.errors ++ t
  | [], r => ⟨[], by simp⟩
  | x :: l, r => by
    rcases foldl_errors_mono hstep l (step r x) with ⟨t1, ht1⟩
    rcases hstep r x with ⟨t0, ht0⟩
    exact ⟨t0 ++ t1, by simp [List.foldl_cons, ht1, ht0]⟩

theorem errors_mem_foldl {α : Type} {step : ValidationResults → α → ValidationResults}
    (hstep : ∀ r x, ∃ t, (step r x).errors = r.errors ++ t)
    {e : String} {r : ValidationResults} (he : e ∈ r.errors) (l : List α) :
    e ∈ (l.foldl step r).errors := by
  rcases foldl_errors_mono hstep l r with ⟨t, ht⟩
  rw [ht]
  exact List.mem_append_left _ he

theorem dimKeyCheck_fold_mem (dims : List DimensionTable) (keys : List String)
    (k : String) (hk : k ∈ keys)
    (hnone : ∀ d ∈ dims, jsToLower d.name ≠ jsToLower (jsReplaceFirst k "Key" "")) :
    ∀ r : ValidationResults,
      dimNotDefinedError (jsReplaceFirst k "Key" "")
        ∈ (keys.foldl (dimKeyCheck dims) r).errors := by
  induction keys with
  | nil => exact absurd hk (List.not_mem_nil k)
  | cons x keys ih =>
    intro r
    rcases List.mem_cons.mp hk with rfl | hmem
    · rw [List.foldl_cons]
      apply errors_mem_foldl (fun r x => dimKeyCheck_errors_mono dims r x)
      unfold dimKeyCheck
      rw [List.find?_eq_none.mpr (by simpa using fun d hd => hnone d hd)]
      exact List.mem_append_right _ (List.mem_singleton.mpr rfl)
    · rw [List.foldl_cons]
      exact ih hmem (dimKeyCheck dims r x)

theorem dimKeyCheck_warnings (dims : List DimensionTable) (r : ValidationResults)
    (k : String) : (dimKeyCheck dims r k).warnings = r.warnings := by
  unfold dimKeyCheck
  split <;> rfl

theorem dimTableCheckNK_warnings_mem {w : String} (r : ValidationResults)
    (dim : DimensionTable) (h : w ∈ r.warnings) : w ∈ (dimTableCheckNK r dim).warnings := by
  unfold dimTableCheckNK
  split
  · exact List.mem_append_left _ h
  · exact h

theorem dimTableCheckSCD_warnings (r : ValidationResults) (dim : DimensionTable) :
    (dimTableCheckSCD r dim).warnings = r.warnings := by
  unfold dimTableCheckSCD
  split
  · split <;> rfl
  · rfl

theorem dimTableCheck_warnings_mem {w : String} (r : ValidationResults)
    (dim : DimensionTable) (h : w ∈ r.warnings) : w ∈ (dimTableCheck r dim).warnings := by
  unfold dimTableCheck
  rw [dimTableCheckSCD_warnings]
  exact dimTableCheckNK_warnings_mem r dim h

/-- C5 counterexample: on the schema whose fact key is `KeyAccountKey` and
whose only dimension is named `AccountKey`, the trailing-suffix resolution
the claim describes matches no dimension — so the claim demands an error and
`isValid = false` — yet the code resolves by removing the *first* occurrence
of `Key` (JavaScript `replace`), finds `AccountKey`, and reports no error. -/
theorem c5_counterexample :
    (∀ d ∈ keyAccountKeySchema.dimensionTables,
      jsToLower d.name ≠ jsToLower (specStripTrailingKey "KeyAccountKey"))
    ∧ (validateStarSchema keyAccountKeySchema).errors = []
    ∧ (validateStarSchema keyAccountKeySchema).isValid = true := by decide

/-- C5 (amended): for every StarSchema and entry `k` of the fact's
`dimensionKeys`, the validator resolves `k` by removing the first occurrence
of `"Key"` (JavaScript `replace` semantics) and comparing the remainder
case-insensitively against the dimension names; whenever no dimension
matches, the errors list contains the error naming the unresolved dimension
and `isValid` is false. -/
theorem c5_unresolved_dimension_key (s : StarSchema) (k : String)
    (hk : k ∈ s.factTable.dimensionKeys)
    (hnone : ∀ d ∈ s.dimensionTables,
      jsToLower d.name ≠ jsToLower (resolveDimensionName k)) :
    dimNotDefinedError (resolveDimensionName k) ∈ (validateStarSchema s).errors
    ∧ (validateStarSchema s).isValid = false := by
  have hmem : dimNotDefinedError (resolveDimensionName k)
      ∈ (validateStarSchema s).errors := by
    unfold validateStarSchema
    apply errors_mem_foldl (fun r x => dimTableCheck_errors_mono r x)
    exact dimKeyCheck_fold_mem s.dimensionTables s.factTable.dimensionKeys k hk hnone _
  refine ⟨hmem, ?_⟩
  have hv := validateStarSchema_validInv s
  unfold validInv at hv
  rw [hv]
  cases herr : (validateStarSchema s).errors with
  | nil => rw [herr] at hmem; exact absurd hmem (List.not_mem_nil _)
  | cons e t => rfl

/-- Witness for C5 (amended): `ProductKey` resolves to `Product`, which no
dimension matches, and the validator reports it. -/
theorem c5_unresolved_dimension_key_witness :
    ("ProductKey" ∈ productCustomerSchema.factTable.dimensionKeys
      ∧ (∀ d ∈ productCustomerSchema.dimensionTables,
          jsToLower d.name ≠ jsToLower (resolveDimensionName "ProductKey")))
    ∧ dimNotDefinedError (resolveDimensionName "ProductKey")
        ∈ (validateStarSchema productCustomerSchema).errors
    ∧ (validateStarSchema productCustomerSchema).isValid = false :=
  ⟨⟨by decide, by decide⟩,
    (c5_unresolved_dimension_key productCustomerSchema "ProductKey" (by decide)
      (by decide)).1,
    (c5_unresolved_dimension_key productCustomerSchema "ProductKey" (by decide)
      (by decide)).2⟩

/-- C6: the validator's `isValid` is true exactly when its errors list is
empty, and the zero-measures rule only ever adds a warning (present whenever
the fact has no measures) without invalidating. -/
theorem c6_validate_isValid_iff (s : StarSchema) :
    ((validateStarSchema s).isValid = true ↔ (validateStarSchema s).errors = [])
    ∧ (s.factTable.measures.length = 0 →
        "Fact table has no measures defined" ∈ (validateStarSchema s).warnings) := by
  constructor
  · have hv := validateStarSchema_validInv s
    unfold validInv at hv
    rw [hv]
    exact List.isEmpty_iff
  · intro hm
    unfold validateStarSchema
    refine @foldl_preserves _ _
      (fun r : ValidationResults => "Fact table has no measures defined" ∈ r.warnings) _
      (fun r x h => dimTableCheck_warnings_mem r x h) _ _ ?_
    refine @foldl_preserves _ _
      (fun r : ValidationResults => "Fact table has no measures defined" ∈ r.warnings) _
      (fun r x h => by
        show "Fact table has no measures defined" ∈ (dimKeyCheck s.dimensionTables r x).warnings
        rw [dimKeyCheck_warnings]
        exact h) _ _ ?_
    rw [if_pos hm]
    simp

/-- Witness for C6 at a schema with zero measures: the warning is present and
`isValid` still agrees with error emptiness. -/
theorem c6_validate_isValid_iff_witness :
    noMeasuresSchema.factTable.measures.length = 0
    ∧ ((validateStarSchema noMeasuresSchema).isValid = true
        ↔ (validateStarSchema noMeasuresSchema).errors = [])
    ∧ "Fact table has no measures defined"
        ∈ (validateStarSchema noMeasuresSchema).warnings :=
  ⟨rfl, (c6_validate_isValid_iff noMeasuresSchema).1,
    (c6_validate_isValid_iff noMeasuresSchema).2 rfl⟩

/-! ## Batch deployment lemmas (C8) -/

theorem flowFold_spec (oc : DataFlowDefinition → Except String Unit) :
    ∀ (dfs : List DataFlowDefinition) (acc : DeploymentResults × List DeployAttempt),
      (dfs.foldl (deployDataFlowStep oc) acc).1.deployedDataFlows
          = acc.1.deployedDataFlows
            ++ (dfs.filter (fun df => exceptOk (oc df))).map (·.name)
        ∧ (dfs.foldl (deployDataFlowStep oc) acc).1.errors
          = acc.1.errors ++ (dfs.filter (fun df => !exceptOk (oc df))).map (dataFlowErrorMsg oc)
        ∧ (dfs.foldl (deployDataFlowStep oc) acc).1.deployedPipelines
          = acc.1.deployedPipelines
        ∧ (dfs.foldl (deployDataFlowStep oc) acc).1.packageName = acc.1.packageName
        ∧ (dfs.foldl (deployDataFlowStep oc) acc).2
          = acc.2 ++ dfs.map (fun df => DeployAttempt.dataflow df.name)
  | [], acc => by simp
  | df :: dfs, (r, tr) => by
    rw [List.foldl_cons]
    have ih := flowFold_spec oc dfs (deployDataFlowStep oc (r, tr) df)
    rcases ih with ⟨ih1, ih2, ih3, ih4, ih5⟩
    rw [ih1, ih2, ih3, ih4, ih5]
    cases hoc : oc df <;>
      simp [deployDataFlowStep, hoc, exceptOk, dataFlowErrorMsg, exceptErrMsg,
        List.filter_cons, List.append_assoc]

theorem pipeFold_spec (oc : PipelineDefinition → Except String Unit) :
    ∀ (pls : List PipelineDefinition) (acc : DeploymentResults × List DeployAttempt),
      (pls.foldl (deployPipelineStep oc) acc).1.deployedPipelines
          = acc.1.deployedPipelines
            ++ (pls.filter (fun pl => exceptOk (oc pl))).map (·.name)
        ∧ (pls.foldl (deployPipelineStep oc) acc).1.errors
          = acc.1.errors ++ (pls.filter (fun pl => !exceptOk (oc pl))).map (pipelineErrorMsg oc)
        ∧ (pls.foldl (deployPipelineStep oc) acc).1.deployedDataFlows
          = acc.1.deployedDataFlows
        ∧ (pls.foldl (deployPipelineStep oc) acc).1.packageName = acc.1.packageName
        ∧ (pls.foldl (deployPipelineStep oc) acc).2
          = acc.2 ++ pls.map (fun pl => DeployAttempt.pipeline pl.name)
  | [], acc => by simp
  | pl :: pls, (r, tr) => by
    rw [List.foldl_cons]
    have ih := pipeFold_spec oc pls (deployPipelineStep oc (r, tr) pl)
    rcases ih with ⟨ih1, ih2, ih3, ih4, ih5⟩
    rw [ih1, ih2, ih3, ih4, ih5]
    cases hoc : oc pl <;>
      simp [deployPipelineStep, hoc, exceptOk, pipelineErrorMsg, exceptErrMsg,
        List.filter_cons, List.append_assoc]

/-- C8: for every batch and every pattern of per-item service outcomes, the
call trace attempts every data flow (in order) before any pipeline and
attempts every item of both lists; the succeeded-name lists are exactly the
names of the items whose outcome succeeded, in order; the error list is
exactly the per-item messages of the failed data flows followed by those of
the failed pipelines. A failure never removes later items from the trace, so
the batch is never aborted early. -/
theorem c8_deployPipelinePackage (packageName : String)
    (pipelines : List PipelineDefinition) (dataFlows : List DataFlowDefinition)
    (dfo : DataFlowDefinition → Except String Unit)
    (plo : PipelineDefinition → Except String Unit) :
    let res := deployPipelinePackage packageName pipelines dataFlows dfo plo
    res.2 = dataFlows.map (fun df => DeployAttempt.dataflow df.name)
        ++ pipelines.map (fun pl => DeployAttempt.pipeline pl.name)
    ∧ res.1.deployedDataFlows
        = (dataFlows.filter (fun df => exceptOk (dfo df))).map (·.name)
    ∧ res.1.deployedPipelines
        = (pipelines.filter (fun pl => exceptOk (plo pl))).map (·.name)
    ∧ res.1.errors
        = (dataFlows.filter (fun df => !exceptOk (dfo df))).map (dataFlowErrorMsg dfo)
          ++ (pipelines.filter (fun pl => !exceptOk (plo pl))).map (pipelineErrorMsg plo)
    ∧ res.1.packageName = packageName := by
  intro res
  have hres : res = pipelines.foldl (deployPipelineStep plo)
      (dataFlows.foldl (deployDataFlowStep dfo)
        ({ packageName := packageName, deployedPipelines := [], deployedDataFlows := [],
           errors := [] }, [])) := rfl
  rcases pipeFold_spec plo pipelines (dataFlows.foldl (deployDataFlowStep dfo)
    ({ packageName := packageName, deployedPipelines := [], deployedDataFlows := [],
       errors := [] }, [])) with ⟨hp1, hp2, hp3, hp4, hp5⟩
  rcases flowFold_spec dfo dataFlows
    ({ packageName := packageName, deployedPipelines := [], deployedDataFlows := [],
       errors := [] }, []) with ⟨hf1, hf2, hf3, hf4, hf5⟩
  refine ⟨?_, ?_, ?_, ?_, ?_⟩
  · rw [hres, hp5, hf5]; simp
  · rw [hres, hp3, hf1]; simp
  · rw [hres, hp1, hf3]; simp
  · rw [hres, hp2, hf2]; simp
  · rw [hres, hp4, hf4]

/-! ## Warehouse architecture clock dependence (C9) -/

theorem arch_sql_decomp (dwName : String) (layers : List DataWarehouseLayer)
    (nowIso : String) :
    (createDataWarehouseArchitecture dwName layers nowIso).sqlScript
      = archHeaderPre dwName ++ (nowIso ++ archAfterHeader dwName layers) := by
  apply strExt
  simp only [createDataWarehouseArchitecture, archHeaderPre, archAfterHeader,
    strData_append, List.append_assoc]

/-- C9 counterexample: `createDataWarehouseArchitecture` — one of the
operations the claim asserts to be a side-effect-free pure function of its
arguments — interpolates the ambient clock reading
(`new Date().toISOString()`) into its emitted script, so two runs on
identical inputs at different instants produce different outputs. -/
theorem c9_counterexample :
    (createDataWarehouseArchitecture "EnterpriseDW" [] "2025-01-01T00:00:00.000Z").sqlScript
      ≠ (createDataWarehouseArchitecture "EnterpriseDW" []
          "2025-01-02T00:00:00.000Z").sqlScript := by
  intro h
  rw [arch_sql_decomp, arch_sql_decomp] at h
  have h2 := strAppend_left_cancel h
  have h3 : ("2025-01-01T00:00:00.000Z" : String) = "2025-01-02T00:00:00.000Z" := by
    have hd := congrArg String.data h2
    rw [strData_append, strData_append] at hd
    exact strExt (List.append_cancel_right hd)
  exact absurd h3 (by decide)

/-- C9 (amended): all the cited synthesis, validation, and graph-building
operations are deterministic functions of their declared arguments, with one
exception: `createDataWarehouseArchitecture` additionally reads the clock,
whose value appears only in the `-- Created on:` header comment of the
script — every other returned component, and all of the script before and
after the interpolated reading, is the same function of the arguments alone. -/
theorem c9_arch_clock_only_in_header (dwName : String)
    (layers : List DataWarehouseLayer) (t1 t2 : String) :
    (createDataWarehouseArchitecture dwName layers t1).dwName
        = (createDataWarehouseArchitecture dwName layers t2).dwName
    ∧ (createDataWarehouseArchitecture dwName layers t1).layers
        = (createDataWarehouseArchitecture dwName layers t2).layers
    ∧ (createDataWarehouseArchitecture dwName layers t1).message
        = (createDataWarehouseArchitecture dwName layers t2).message
    ∧ ∃ pre post,
        (createDataWarehouseArchitecture dwName layers t1).sqlScript = pre ++ (t1 ++ post)
        ∧ (createDataWarehouseArchitecture dwName layers t2).sqlScript
          = pre ++ (t2 ++ post) :=
  ⟨rfl, rfl, rfl, archHeaderPre dwName, archAfterHeader dwName layers,
    arch_sql_decomp dwName layers t1, arch_sql_decomp dwName layers t2⟩

end AzureMcp
